import Mathlib

/-!
Verification of the lambdi dependency-injection container.

The source file src/container.ts holds two variants of the container:
the current minimal variant, whose resolve method takes the creation
function directly, and an older variant that separates register from
resolve. Both are embedded below. JavaScript runtime values stored in
the cache map are modelled by the inductive type JSVal, which keeps the
JavaScript notion of truthiness, because the minimal variant guards its
cache hit with a truthiness test rather than a presence test. Promises
are modelled by identifiers resolved in a World holding every promise
state, the factory call counts, and a fresh-id counter; the microtask
queue of creation chains is a task list. The synchronous part of
resolve (everything up to returning the creation promise) is one atomic
function, faithful to the single-threaded event loop in which code
between suspension points runs without interleaving; the creation chain
(run the factory, then the success or failure handler) runs later as a
task.
-/

namespace Lambdi

/-- A JavaScript value as stored in the container maps: numbers,
strings, booleans, undefined, promise references and object
references. -/
inductive JSVal where
  | num (n : Int)
  | str (s : String)
  | bool (b : Bool)
  | undef
  | promise (pid : Nat)
  | obj (oid : Nat)
deriving Repr, DecidableEq

/-- JavaScript truthiness of a stored value. The minimal variant of
resolve tests the cached value with a bare if, so truthiness decides
whether a cache entry is honoured. -/
def truthy : JSVal → Bool
  | .num n => n != 0
  | .str s => s != ""
  | .bool b => b
  | .undef => false
  | .promise _ => true
  | .obj _ => true

/-- Association-list lookup, modelling Map.get keyed by symbol. -/
def lookup {α : Type} : List (Nat × α) → Nat → Option α
  | [], _ => none
  | p :: rest, k => if p.1 = k then some p.2 else lookup rest k

/-- Association-list update, modelling Map.set: replace the binding in
place or append a new one. -/
def setk {α : Type} : List (Nat × α) → Nat → α → List (Nat × α)
  | [], k, v => [(k, v)]
  | p :: rest, k, v => if p.1 = k then (k, v) :: rest else p :: setk rest k v

/-- Association-list removal, modelling Map.delete. -/
def delk {α : Type} : List (Nat × α) → Nat → List (Nat × α)
  | [], _ => []
  | p :: rest, k => if p.1 = k then delk rest k else p :: delk rest k

/-- The outcome of one factory invocation: the settled value of the
creation, or the error it throws or rejects with. -/
inductive Outcome where
  | ok (v : JSVal)
  | err (e : JSVal)
deriving Repr, DecidableEq

/-- The state of a promise in the world. -/
inductive PromState where
  | pending
  | fulfilled (v : JSVal)
  | rejected (e : JSVal)
deriving Repr, DecidableEq

/-- A queued creation chain: Promise.resolve().then(factory) followed by
the success handler and the catch handler, for a given token key,
creation promise id and factory id, plus the staged dispose callback
id when the resolve call supplied one. -/
structure PendingTask where
  key : Nat
  pid : Nat
  fid : Nat
  disp : Option Nat
deriving Repr, DecidableEq

/-- The container of the minimal variant: the singletons map from token
key to stored value (the creation promise while pending, the raw value
once ready), the disposer closures (dispose callback id paired with the
captured resolved value), and the creation chains this container has
queued on the microtask queue. -/
structure Container where
  singletons : List (Nat × JSVal)
  disposers : List (Nat × JSVal)
  tasks : List PendingTask
deriving Repr, DecidableEq

/-- A freshly constructed container. -/
def Container.empty : Container := ⟨[], [], []⟩

/-- Global event-loop state shared by all containers: promise states,
the fresh promise-id counter and the per-factory invocation counts. -/
structure World where
  promises : List (Nat × PromState)
  nextPid : Nat
  calls : List (Nat × Nat)
deriving Repr, DecidableEq

/-- The initial world. -/
def World.empty : World := ⟨[], 0, []⟩

/-- How many times a factory has been invoked so far. -/
def getCalls (w : World) (fid : Nat) : Nat := (lookup w.calls fid).getD 0

/-- Cache-miss path of the minimal resolve: build the creation chain
(queuing its task and a fresh pending promise), synchronously install
the creation promise in the singletons map, and return it. -/
def resolveMiss (c : Container) (w : World) (key fid : Nat) (disp : Option Nat) :
    Container × World × JSVal :=
  let pid := w.nextPid
  ({ c with
      singletons := setk c.singletons key (.promise pid),
      tasks := c.tasks ++ [⟨key, pid, fid, disp⟩] },
    { w with
      promises := setk w.promises pid .pending,
      nextPid := pid + 1 },
    .promise pid)

/-- The synchronous body of the minimal resolve(t, factory, opts): read
the cached value; if it is truthy return it unchanged, otherwise run the
miss path. The factory itself never runs here; it runs later when the
queued creation chain is processed. -/
def Container.resolve (c : Container) (w : World) (key fid : Nat) (disp : Option Nat) :
    Container × World × JSVal :=
  match lookup c.singletons key with
  | some existing =>
      if truthy existing then (c, w, existing) else resolveMiss c w key fid disp
  | none => resolveMiss c w key fid disp

/-- Execution of one queued creation chain: invoke the factory (its
behaviour given by fenv per invocation index), then on success store the
raw value in the singletons map, push the disposer closure when one was
supplied, and fulfil the creation promise; on failure delete the cache
entry and reject the creation promise. -/
def runTask (fenv : Nat → Nat → Outcome) (c : Container) (w : World) (tk : PendingTask) :
    Container × World :=
  let n := getCalls w tk.fid
  let w2 : World := { w with calls := setk w.calls tk.fid (n + 1) }
  match fenv tk.fid n with
  | .ok v =>
      ({ c with
          singletons := setk c.singletons tk.key v,
          disposers := c.disposers ++ (match tk.disp with
            | some d => [(d, v)]
            | none => []) },
        { w2 with promises := setk w2.promises tk.pid (.fulfilled v) })
  | .err e =>
      ({ c with singletons := delk c.singletons tk.key },
        { w2 with promises := setk w2.promises tk.pid (.rejected e) })

/-- Run a list of creation chains in order. -/
def runTasks (fenv : Nat → Nat → Outcome) :
    List PendingTask → Container → World → Container × World
  | [], c, w => (c, w)
  | tk :: rest, c, w =>
      let s := runTask fenv c w tk
      runTasks fenv rest s.1 s.2

/-- Drain the microtask queue of a container. -/
def runQueue (fenv : Nat → Nat → Outcome) (c : Container) (w : World) :
    Container × World :=
  runTasks fenv c.tasks { c with tasks := [] } w

/-- What a caller that awaits the value returned by resolve observes:
awaiting a promise yields its settlement once it has one, awaiting a
plain value yields the value. -/
def observe (w : World) : JSVal → Option Outcome
  | .promise pid =>
      match lookup w.promises pid with
      | some (.fulfilled v) => some (.ok v)
      | some (.rejected e) => some (.err e)
      | _ => none
  | v => some (.ok v)

/-- Behaviour of one disposer invocation: return normally (or return a
promise that fulfils), return a promise that rejects with e, or throw e
synchronously during the call itself. -/
inductive DBehavior where
  | ok
  | asyncErr (e : JSVal)
  | throwSync (e : JSVal)
deriving Repr, DecidableEq

/-- The expression this.disposers.map(fn => fn()) inside disposeAll:
invoke the disposer closures in order; a synchronous throw propagates
out of map immediately, so the remaining disposers are never invoked;
otherwise collect the returned settlement behaviours for allSettled. -/
def mapDisposers (denv : Nat → JSVal → DBehavior) :
    List (Nat × JSVal) → Except JSVal (List DBehavior)
  | [] => .ok []
  | p :: rest =>
      match denv p.1 p.2 with
      | .throwSync e => .error e
      | b => (mapDisposers denv rest).map (fun bs => b :: bs)

/-- The minimal disposeAll: await Promise.allSettled over the invoked
disposers (allSettled itself never rejects, so rejected disposer
promises are tolerated), then clear the singletons map and the disposer
list. A synchronous throw inside the map aborts the async body before
the allSettled line, so the returned promise rejects and neither clear
runs. -/
def Container.disposeAll (denv : Nat → JSVal → DBehavior) (c : Container) :
    Except JSVal Container :=
  match mapDisposers denv c.disposers with
  | .error e => .error e
  | .ok _ => .ok { c with singletons := [], disposers := [] }

/-- createScope of the minimal variant: a new container whose singletons
map is a shallow copy (new Map) of the parent map at this moment; the
child starts with no disposers and no queued tasks of its own. -/
def Container.createScope (c : Container) : Container :=
  { singletons := c.singletons, disposers := [], tasks := [] }

/-- An injection token: the unique symbol key (Symbol minting modelled
by a fresh counter) and its diagnostic description. -/
structure InjectionToken where
  key : Nat
  description : String
deriving Repr, DecidableEq

/-- The state of the Symbol mint: the next fresh identity. -/
structure SymbolGen where
  next : Nat
deriving Repr, DecidableEq

/-- token(description): mint a fresh opaque identity carrying the
description only as a diagnostic label. -/
def token (description : String) (g : SymbolGen) : InjectionToken × SymbolGen :=
  (⟨g.next, description⟩, ⟨g.next + 1⟩)

/-- A registration of the older variant: the factory, the staged
dispose callback id, and the singleton flag (always set by register and
registerValue). -/
structure Registration where
  fid : Nat
  disp : Option Nat
  isSingleton : Bool
deriving Repr, DecidableEq

/-- The container of the older variant, separating the registrations
map from the resolvedInstances map; its disposers pair the instance
promise id with the dispose callback id. -/
structure RegContainer where
  registrations : List (Nat × Registration)
  resolvedInstances : List (Nat × JSVal)
  disposers : List (Nat × Nat)
  tasks : List PendingTask
deriving Repr, DecidableEq

/-- A freshly constructed registration-variant container. -/
def RegContainer.empty : RegContainer := ⟨[], [], [], []⟩

/-- What a resolve call of the older variant produces synchronously:
the returned (promise) value, or a thrown error, which the async
machinery surfaces as a rejection. -/
inductive ResolveOutcome where
  | ret (v : JSVal)
  | thrown (msg : String)
deriving Repr, DecidableEq

/-- The synchronous body of the older resolve(t): return the cached
instance promise if present; otherwise look up the registration and
throw when none exists; otherwise queue the creation chain, cache the
instance promise and stage the disposer when the registration is a
singleton, and return the instance promise. Only the synchronous phase
is modelled; no analysed property depends on this variant completing a
creation. -/
def RegContainer.resolve (c : RegContainer) (w : World) (t : InjectionToken) :
    RegContainer × World × ResolveOutcome :=
  match lookup c.resolvedInstances t.key with
  | some v => (c, w, .ret v)
  | none =>
      match lookup c.registrations t.key with
      | none =>
          (c, w, .thrown
            ("DI Container: No registration found for token \"" ++
              t.description ++ "\"."))
      | some reg =>
          let pid := w.nextPid
          let c2 : RegContainer :=
            { c with tasks := c.tasks ++ [⟨t.key, pid, reg.fid, reg.disp⟩] }
          let c3 : RegContainer :=
            if reg.isSingleton then
              { c2 with
                  resolvedInstances :=
                    setk c2.resolvedInstances t.key (.promise pid),
                  disposers := c2.disposers ++ (match reg.disp with
                    | some d => [(pid, d)]
                    | none => []) }
            else c2
          (c3,
            { w with
                promises := setk w.promises pid .pending,
                nextPid := pid + 1 },
            .ret (.promise pid))

/-- An environment-variable schema of the external validation facility:
its parse either returns the validated mapping or fails with a
validation error. The facility is a third-party library, so it is kept
abstract. -/
structure ZodSchema where
  parse : List (String × JSVal) → Except String (List (String × JSVal))

/-- Whether a source mapping satisfies a schema: its parse succeeds. -/
def satisfies (s : ZodSchema) (m : List (String × JSVal)) : Bool :=
  match s.parse m with
  | .ok _ => true
  | .error _ => false

/-- loadenv(schema, envSource): validate envSource, defaulting to the
process environment, by delegating to schema.parse. -/
def loadenv (schema : ZodSchema) (envSource : Option (List (String × JSVal)))
    (processEnv : List (String × JSVal)) :
    Except String (List (String × JSVal)) :=
  schema.parse (envSource.getD processEnv)

/-- One resolve request in a burst of concurrent callers: the factory
it passes and the dispose option it supplies. -/
structure ResolveReq where
  fid : Nat
  disp : Option Nat
deriving Repr, DecidableEq

/-- A burst of resolve calls for the same token, issued back to back
within one synchronous stretch of the event loop, before any queued
creation chain has run. -/
def resolveMany : Container → World → Nat → List ResolveReq →
    Container × World × List JSVal
  | c, w, _, [] => (c, w, [])
  | c, w, key, r :: rest =>
      let s := c.resolve w key r.fid r.disp
      let s2 := resolveMany s.1 s.2.1 key rest
      (s2.1, s2.2.1, s.2.2 :: s2.2.2)

/-- Reading back the key just written by setk yields the new value. -/
lemma lookup_setk_self {α : Type} (m : List (Nat × α)) (k : Nat) (v : α) :
    lookup (setk m k v) k = some v := by
  induction m with
  | nil => simp [setk, lookup]
  | cons p rest ih =>
      by_cases h : p.1 = k
      · simp [setk, lookup, h]
      · simp [setk, lookup, h, ih]

/-- setk leaves every other key unchanged. -/
lemma lookup_setk_ne {α : Type} (m : List (Nat × α)) (k1 k2 : Nat) (v : α)
    (h : k1 ≠ k2) : lookup (setk m k1 v) k2 = lookup m k2 := by
  induction m with
  | nil => simp [setk, lookup, h]
  | cons p rest ih =>
      by_cases hp : p.1 = k1
      · simp [setk, lookup, hp, h]
      · simp [setk, lookup, hp, ih]

/-- After delk the key is absent. -/
lemma lookup_delk_self {α : Type} (m : List (Nat × α)) (k : Nat) :
    lookup (delk m k) k = none := by
  induction m with
  | nil => simp [delk, lookup]
  | cons p rest ih =>
      by_cases h : p.1 = k
      · simp [delk, h, ih]
      · simp [delk, lookup, h, ih]

/-- A resolve call that finds a truthy cached value is a pure cache
hit: the container, the world and therefore the factory call counts are
untouched and the cached value itself is returned. -/
lemma resolve_hit_eq (c : Container) (w : World) (key fid : Nat)
    (disp : Option Nat) (v : JSVal) (hv : lookup c.singletons key = some v)
    (ht : truthy v = true) : c.resolve w key fid disp = (c, w, v) := by
  simp [Container.resolve, hv, ht]

/-- A whole burst of resolve calls against a truthy cached value leaves
the state untouched and hands every caller that same value. -/
lemma resolveMany_hit (key : Nat) (v : JSVal) (ht : truthy v = true)
    (reqs : List ResolveReq) :
    ∀ (c : Container) (w : World), lookup c.singletons key = some v →
      resolveMany c w key reqs = (c, w, List.replicate reqs.length v) := by
  induction reqs with
  | nil => intro c w _; simp [resolveMany]
  | cons r rest ih =>
      intro c w hv
      simp [resolveMany, resolve_hit_eq c w key r.fid r.disp v hv ht,
        ih c w hv, List.replicate]

/-- Characterisation of a burst of resolve calls for an absent token:
the first call installs the pending creation promise and queues exactly
one creation chain, every call in the burst returns that same promise,
and no factory runs during the burst. -/
lemma resolveMany_absent (c : Container) (w : World) (key : Nat)
    (r0 : ResolveReq) (rest : List ResolveReq)
    (habs : lookup c.singletons key = none) :
    resolveMany c w key (r0 :: rest) =
      ({ c with
          singletons := setk c.singletons key (.promise w.nextPid),
          tasks := c.tasks ++ [⟨key, w.nextPid, r0.fid, r0.disp⟩] },
        { w with
          promises := setk w.promises w.nextPid .pending,
          nextPid := w.nextPid + 1 },
        List.replicate (rest.length + 1) (JSVal.promise w.nextPid)) := by
  have hmiss : c.resolve w key r0.fid r0.disp = resolveMiss c w key r0.fid r0.disp := by
    simp [Container.resolve, habs]
  have hrest := resolveMany_hit key (JSVal.promise w.nextPid) rfl rest
      { c with
          singletons := setk c.singletons key (.promise w.nextPid),
          tasks := c.tasks ++ [⟨key, w.nextPid, r0.fid, r0.disp⟩] }
      { w with
          promises := setk w.promises w.nextPid .pending,
          nextPid := w.nextPid + 1 }
      (lookup_setk_self _ _ _)
  simp [resolveMany, hmiss, resolveMiss, hrest, List.replicate]

/-- C1: For a token with no cache entry, any burst of resolve calls
issued on the same container before the first creation chain runs hands
every caller the same creation promise, queues exactly one creation
chain, and runs no factory during the burst; running that single chain
invokes the creation function exactly once and settles the shared
promise, so every caller observes the same outcome. The deduplication
holds because resolve synchronously installs the pending entry in the
singletons map before the creation function runs. -/
theorem resolve_concurrent_dedup (c : Container) (w : World) (key : Nat)
    (r0 : ResolveReq) (rest : List ResolveReq) (fenv : Nat → Nat → Outcome)
    (habs : lookup c.singletons key = none) :
    ((resolveMany c w key (r0 :: rest)).2.2 =
        List.replicate (rest.length + 1) (JSVal.promise w.nextPid)) ∧
    ((resolveMany c w key (r0 :: rest)).1.tasks =
        c.tasks ++ [⟨key, w.nextPid, r0.fid, r0.disp⟩]) ∧
    ((resolveMany c w key (r0 :: rest)).2.1.calls = w.calls) ∧
    (getCalls
        (runTask fenv (resolveMany c w key (r0 :: rest)).1
          (resolveMany c w key (r0 :: rest)).2.1
          ⟨key, w.nextPid, r0.fid, r0.disp⟩).2 r0.fid
      = getCalls w r0.fid + 1) ∧
    (∀ ret ∈ (resolveMany c w key (r0 :: rest)).2.2,
      observe
        (runTask fenv (resolveMany c w key (r0 :: rest)).1
          (resolveMany c w key (r0 :: rest)).2.1
          ⟨key, w.nextPid, r0.fid, r0.disp⟩).2 ret
        = some (fenv r0.fid (getCalls w r0.fid))) := by
  have hchar := resolveMany_absent c w key r0 rest habs
  rw [hchar]
  refine ⟨rfl, rfl, rfl, ?_, ?_⟩
  · rcases hfe : fenv r0.fid (getCalls w r0.fid) with v | e <;>
      simp [runTask, getCalls, hfe, lookup_setk_self] at hfe ⊢
  · intro ret hret
    rw [List.eq_of_mem_replicate hret]
    rcases hfe : fenv r0.fid (getCalls w r0.fid) with v | e <;>
      simp [runTask, getCalls, observe, lookup_setk_self] at hfe ⊢ <;>
      simp [hfe, lookup_setk_self, observe]

/-- Witness for C1: three concurrent resolve calls for token 1 on an
empty container all receive the creation promise with id 0. -/
theorem resolve_concurrent_dedup_witness :
    (resolveMany Container.empty World.empty 1
        [⟨0, none⟩, ⟨1, none⟩, ⟨2, none⟩]).2.2 =
      List.replicate 3 (JSVal.promise 0) :=
  (resolve_concurrent_dedup Container.empty World.empty 1 ⟨0, none⟩
    [⟨1, none⟩, ⟨2, none⟩] (fun _ _ => .ok (.num 42)) (by decide)).1

/-- Factory environment for the C2 counterexample: factory 0 yields the
number 0, factory 1 yields 123. -/
def c2Fenv : Nat → Nat → Outcome :=
  fun fid _ => if fid = 0 then .ok (.num 0) else .ok (.num 123)

/-- First resolve of token 1 with factory 0. -/
def c2Step1 : Container × World × JSVal :=
  Container.resolve Container.empty World.empty 1 0 none

/-- Run the first creation chain: token 1 becomes ready holding 0. -/
def c2Run1 : Container × World :=
  runQueue c2Fenv c2Step1.1 c2Step1.2.1

/-- Second resolve of token 1, passing the different factory 1. -/
def c2Step2 : Container × World × JSVal :=
  Container.resolve c2Run1.1 c2Run1.2 1 1 none

/-- Run the second creation chain. -/
def c2Run2 : Container × World :=
  runQueue c2Fenv c2Step2.1 c2Step2.2.1

/-- Counterexample to C2: token 1 has a ready cache entry holding the
value 0, yet the next resolve call does not return that entry: because
the cache hit is a truthiness test and 0 is falsy, it queues a fresh
creation chain for the factory passed on this call, that factory is
invoked, and the caller ends up observing 123 rather than the cached 0,
so resolving the same token twice yielded two different values with two
factory invocations in total. -/
theorem resolve_falsy_cached_reinvokes :
    lookup c2Run1.1.singletons 1 = some (JSVal.num 0) ∧
    c2Step2.1.tasks = [⟨1, 1, 1, none⟩] ∧
    getCalls c2Run2.2 1 = 1 ∧
    observe c2Run2.2 c2Step2.2.2 = some (.ok (.num 123)) ∧
    observe c2Run2.2 c2Step1.2.2 = some (.ok (.num 0)) := by
  decide

/-- C2 (amended): for every token whose cache entry is pending, or
ready with a truthy value, a resolve call returns that same
pending-or-ready handle and leaves the container and the world (hence
every factory call count and the task queue) untouched, so the creation
function passed on this call, even a different one, is not invoked. -/
theorem resolve_truthy_cached_shares (c : Container) (w : World)
    (key fid : Nat) (disp : Option Nat) (v : JSVal)
    (hv : lookup c.singletons key = some v) (ht : truthy v = true) :
    c.resolve w key fid disp = (c, w, v) :=
  resolve_hit_eq c w key fid disp v hv ht

/-- Witness for the amended C2: a container holding 7 for token 1 hands
a later resolve call, made with a different factory, that same 7 with
no state change. -/
theorem resolve_truthy_cached_shares_witness :
    Container.resolve ⟨[(1, JSVal.num 7)], [], []⟩ World.empty 1 5 none =
      (⟨[(1, JSVal.num 7)], [], []⟩, World.empty, JSVal.num 7) :=
  resolve_truthy_cached_shares ⟨[(1, JSVal.num 7)], [], []⟩ World.empty 1 5
    none (JSVal.num 7) (by decide) (by decide)

/-- The states and returned handles of the retry scenario: resolve a
token, run its failing creation chain, resolve again, run the second
creation chain. -/
structure RetryTrace where
  afterFail : Container
  afterFailW : World
  final : Container
  finalW : World
  ret1 : JSVal
  ret2 : JSVal
deriving Repr, DecidableEq

/-- The retry scenario for token 1 and factory 0, starting from an
empty container. -/
def retryTrace (fenv : Nat → Nat → Outcome) : RetryTrace :=
  let s1 := Container.resolve Container.empty World.empty 1 0 none
  let q1 := runQueue fenv s1.1 s1.2.1
  let s2 := Container.resolve q1.1 q1.2 1 0 none
  let q2 := runQueue fenv s2.1 s2.2.1
  ⟨q1.1, q1.2, q2.1, q2.2, s1.2.2, s2.2.2⟩

/-- C3: a failing creation chain evicts the cache entry of its token,
registers no disposer, and rejects the creation promise shared by every
awaiter of that attempt; and in the concrete retry scenario, a factory
that fails on its first invocation and succeeds on its second leaves
the first caller observing the rejection, lets the next resolve call
run the factory afresh and succeed, and ends with exactly two factory
invocations in total. -/
theorem creation_failure_evicts_and_retries (fenv : Nat → Nat → Outcome)
    (e v : JSVal) (h0 : fenv 0 0 = .err e) (h1 : fenv 0 1 = .ok v) :
    (∀ (fenv2 : Nat → Nat → Outcome) (c : Container) (w : World)
        (tk : PendingTask) (e2 : JSVal),
      fenv2 tk.fid (getCalls w tk.fid) = .err e2 →
        lookup (runTask fenv2 c w tk).1.singletons tk.key = none ∧
        lookup (runTask fenv2 c w tk).2.promises tk.pid =
          some (.rejected e2)) ∧
    (retryTrace fenv).afterFail.singletons = [] ∧
    lookup (retryTrace fenv).afterFailW.promises 0 = some (.rejected e) ∧
    (retryTrace fenv).ret1 = .promise 0 ∧
    (retryTrace fenv).ret2 = .promise 1 ∧
    observe (retryTrace fenv).finalW (retryTrace fenv).ret1 =
      some (.err e) ∧
    observe (retryTrace fenv).finalW (retryTrace fenv).ret2 =
      some (.ok v) ∧
    lookup (retryTrace fenv).final.singletons 1 = some v ∧
    getCalls (retryTrace fenv).finalW 0 = 2 := by
  constructor
  · intro fenv2 c w tk e2 hfe
    simp [runTask, hfe, lookup_delk_self, lookup_setk_self]
  · simp [retryTrace, runQueue, runTasks, runTask, Container.resolve,
      resolveMiss, Container.empty, World.empty, getCalls, lookup, setk,
      delk, observe, h0, h1]

/-- Factory behaviour for the C3 witness: fail with the string boom on
the first invocation, produce 42 on every later one. -/
def retryWitFenv : Nat → Nat → Outcome :=
  fun _ n => if n = 0 then .err (.str "boom") else .ok (.num 42)

/-- Witness for C3: with the boom-then-42 factory the retry scenario
ends with token 1 ready holding 42 after exactly two factory
invocations. -/
theorem creation_failure_evicts_and_retries_witness :
    lookup (retryTrace retryWitFenv).final.singletons 1 =
      some (JSVal.num 42) ∧
    getCalls (retryTrace retryWitFenv).finalW 0 = 2 := by
  have h := creation_failure_evicts_and_retries retryWitFenv
    (.str "boom") (.num 42) rfl rfl
  exact ⟨h.2.2.2.2.2.2.2.1, h.2.2.2.2.2.2.2.2⟩

/-- C4: when disposeAll completes (fulfils), the resulting container
has an empty singletons map and an empty disposer list, so a subsequent
resolve call for any token, including a previously resolved one, misses
the cache, returns a fresh creation promise, queues a creation chain,
and running that chain invokes the creation function again. -/
theorem disposeAll_resets_container (denv : Nat → JSVal → DBehavior)
    (c c2 : Container) (h : Container.disposeAll denv c = .ok c2) :
    c2.singletons = [] ∧ c2.disposers = [] ∧
    ∀ (w : World) (key fid : Nat) (disp : Option Nat)
      (fenv : Nat → Nat → Outcome),
      (c2.resolve w key fid disp).2.2 = .promise w.nextPid ∧
      (c2.resolve w key fid disp).1.tasks =
        c2.tasks ++ [⟨key, w.nextPid, fid, disp⟩] ∧
      getCalls
        (runTask fenv (c2.resolve w key fid disp).1
          (c2.resolve w key fid disp).2.1 ⟨key, w.nextPid, fid, disp⟩).2
        fid = getCalls w fid + 1 := by
  rcases hm : mapDisposers denv c.disposers with e | bs
  · simp [Container.disposeAll, hm] at h
  · simp [Container.disposeAll, hm] at h
    subst h
    refine ⟨rfl, rfl, ?_⟩
    intro w key fid disp fenv
    rcases hfe : fenv fid (getCalls w fid) with v | e2 <;>
      simp [Container.resolve, resolveMiss, lookup, runTask, getCalls,
        hfe, lookup_setk_self] at hfe ⊢

/-- Witness for C4: disposing a container holding 7 for token 1 leaves
an empty container, and a subsequent resolve call for token 1 returns a
fresh creation promise. -/
theorem disposeAll_resets_container_witness :
    (⟨[], [], []⟩ : Container).singletons = [] ∧
    (Container.resolve ⟨[], [], []⟩ World.empty 1 0 none).2.2 =
      JSVal.promise 0 := by
  have h := disposeAll_resets_container (fun _ _ => DBehavior.ok)
    ⟨[(1, JSVal.num 7)], [(0, JSVal.num 7)], []⟩ ⟨[], [], []⟩ rfl
  exact ⟨h.1, (h.2.2 World.empty 1 0 none (fun _ _ => .ok (.num 1))).1⟩

/-- Whether a disposer invocation throws synchronously. -/
def isThrowSync : DBehavior → Bool
  | .throwSync _ => true
  | _ => false

/-- When no disposer throws synchronously, the map over the disposer
list invokes every disposer exactly once with its bound value and
collects all their settlement behaviours. -/
lemma mapDisposers_no_throw (denv : Nat → JSVal → DBehavior) :
    ∀ (l : List (Nat × JSVal)),
      (∀ p ∈ l, isThrowSync (denv p.1 p.2) = false) →
      mapDisposers denv l = .ok (l.map (fun p => denv p.1 p.2)) := by
  intro l
  induction l with
  | nil => intro _; simp [mapDisposers]
  | cons p rest ih =>
      intro h
      have hp := h p (by simp)
      have hrest := ih (fun q hq => h q (by simp [hq]))
      rcases hb : denv p.1 p.2 with _ | e | e
      · simp [mapDisposers, hb, hrest, Except.map]
      · simp [mapDisposers, hb, hrest, Except.map]
      · rw [hb] at hp; simp [isThrowSync] at hp

/-- Disposer environment for the C5 counterexample: disposer 0 throws
synchronously, every other disposer succeeds. -/
def c5Denv : Nat → JSVal → DBehavior :=
  fun d _ => if d = 0 then .throwSync (.str "boom") else .ok

/-- Container for the C5 counterexample: two resolved values, each with
a registered disposer. -/
def c5Cont : Container :=
  ⟨[(1, JSVal.num 7), (2, JSVal.num 8)],
    [(0, JSVal.num 7), (1, JSVal.num 8)], []⟩

/-- Counterexample to C5: disposer 0 throws synchronously during the
map over the disposer list, so the aggregate disposeAll call itself
rejects with that error, disposer 1 is never invoked, and neither the
singletons map nor the disposer list is cleared; dropping the throwing
disposer from the same container lets disposeAll succeed. -/
theorem disposeAll_sync_throw_aborts :
    Container.disposeAll c5Denv c5Cont = Except.error (JSVal.str "boom") ∧
    Container.disposeAll c5Denv { c5Cont with disposers := [(1, JSVal.num 8)] } =
      Except.ok { c5Cont with singletons := [], disposers := [] } :=
  ⟨rfl, rfl⟩

/-- C5 (amended): provided every failing disposer fails by returning a
rejected promise rather than by throwing synchronously, disposeAll
invokes every registered disposer exactly once, each with the resolved
value it was bound to, individual rejections neither prevent the other
disposers from running nor fail the aggregate call, and the container
is cleared. -/
theorem disposeAll_tolerates_rejections (denv : Nat → JSVal → DBehavior)
    (c : Container)
    (h : ∀ p ∈ c.disposers, isThrowSync (denv p.1 p.2) = false) :
    mapDisposers denv c.disposers =
      .ok (c.disposers.map (fun p => denv p.1 p.2)) ∧
    Container.disposeAll denv c =
      .ok { c with singletons := [], disposers := [] } := by
  have hmap := mapDisposers_no_throw denv c.disposers h
  exact ⟨hmap, by simp [Container.disposeAll, hmap]⟩

/-- Witness for the amended C5: with disposer 0 rejecting
asynchronously and disposer 1 succeeding, both are invoked with their
bound values and disposeAll still fulfils and clears the container. -/
theorem disposeAll_tolerates_rejections_witness :
    mapDisposers (fun d _ => if d = 0 then .asyncErr (.str "x") else .ok)
        ([(0, JSVal.num 7), (1, JSVal.num 8)] : List (Nat × JSVal)) =
      .ok [.asyncErr (.str "x"), .ok] ∧
    Container.disposeAll
        (fun d _ => if d = 0 then .asyncErr (.str "x") else .ok)
        ⟨[(1, JSVal.num 7)], [(0, JSVal.num 7), (1, JSVal.num 8)], []⟩ =
      .ok ⟨[], [], []⟩ :=
  disposeAll_tolerates_rejections
    (fun d _ => if d = 0 then .asyncErr (.str "x") else .ok)
    ⟨[(1, JSVal.num 7)], [(0, JSVal.num 7), (1, JSVal.num 8)], []⟩
    (by decide)

/-- C6: a failing creation chain leaves the disposer list exactly as it
was, even when the resolve call supplied a dispose option (the staged
callback is simply dropped); only a successful creation appends its
disposer, bound to the resolved value. -/
theorem disposer_only_on_success (fenv : Nat → Nat → Outcome)
    (c : Container) (w : World) (tk : PendingTask) :
    (∀ e, fenv tk.fid (getCalls w tk.fid) = .err e →
      (runTask fenv c w tk).1.disposers = c.disposers) ∧
    (∀ v, fenv tk.fid (getCalls w tk.fid) = .ok v →
      (runTask fenv c w tk).1.disposers =
        c.disposers ++ (match tk.disp with
          | some d => [(d, v)]
          | none => [])) := by
  constructor
  · intro e hfe; simp [runTask, hfe]
  · intro v hfe; simp [runTask, hfe]

/-- Witness for C6: a creation chain whose factory throws, although its
resolve call supplied dispose callback 5, leaves the existing disposer
list untouched; the same chain with a succeeding factory appends the
disposer bound to the produced value. -/
theorem disposer_only_on_success_witness :
    (runTask (fun _ _ => .err (.str "boom")) ⟨[], [(9, JSVal.num 1)], []⟩
        World.empty ⟨1, 0, 0, some 5⟩).1.disposers = [(9, JSVal.num 1)] ∧
    (runTask (fun _ _ => .ok (.num 3)) ⟨[], [(9, JSVal.num 1)], []⟩
        World.empty ⟨1, 0, 0, some 5⟩).1.disposers =
      [(9, JSVal.num 1), (5, JSVal.num 3)] :=
  ⟨(disposer_only_on_success (fun _ _ => .err (.str "boom"))
      ⟨[], [(9, JSVal.num 1)], []⟩ World.empty ⟨1, 0, 0, some 5⟩).1
      (.str "boom") rfl,
    (disposer_only_on_success (fun _ _ => .ok (.num 3))
      ⟨[], [(9, JSVal.num 1)], []⟩ World.empty ⟨1, 0, 0, some 5⟩).2
      (.num 3) rfl⟩

/-- Factory environment for the C7 counterexample: the parent factory 0
yields the number 0, the child factory 1 yields 5. -/
def c7Fenv : Nat → Nat → Outcome :=
  fun fid _ => if fid = 0 then .ok (.num 0) else .ok (.num 5)

/-- Parent resolves token 1 with its factory 0. -/
def c7Parent1 : Container × World × JSVal :=
  Container.resolve Container.empty World.empty 1 0 none

/-- Run the parent creation chain: the parent now holds 0 for token
1. -/
def c7Parent2 : Container × World :=
  runQueue c7Fenv c7Parent1.1 c7Parent1.2.1

/-- The child scope, created after the parent resolved token 1,
resolves token 1 with its own factory 1. -/
def c7Child1 : Container × World × JSVal :=
  Container.resolve (Container.createScope c7Parent2.1) c7Parent2.2 1 1 none

/-- Run the child creation chain. -/
def c7Child2 : Container × World :=
  runQueue c7Fenv c7Child1.1 c7Child1.2.1

/-- Counterexample to C7: the parent resolved token 1 to the value 0,
yet the child created afterwards does not resolve token 1 to the parent
value: the inherited entry is falsy, so the child queues its own
creation chain, invokes its own creation function once, and ends up
holding 5 while the parent holds 0. -/
theorem createScope_falsy_inherited_reinvokes :
    lookup c7Parent2.1.singletons 1 = some (JSVal.num 0) ∧
    c7Child1.1.tasks = [⟨1, 1, 1, none⟩] ∧
    getCalls c7Child2.2 1 = 1 ∧
    lookup c7Child2.1.singletons 1 = some (JSVal.num 5) ∧
    observe c7Child2.2 c7Child1.2.2 = some (.ok (.num 5)) := by
  decide

/-- C7 (amended): createScope returns a new container whose singletons
map is a shallow copy of the parent map at the moment of the call and
whose disposer list and task queue start empty; the copy makes the two
mappings independent values thereafter, so resolving in one container
never alters the other. A token the parent resolved to a truthy value
resolves in the child to that same value with no state change and no
invocation of the child creation function, while a token absent in the
parent, resolved in the child, gains an entry in the child only, the
parent mapping still lacking that key. -/
theorem createScope_snapshot_spec (p : Container) (w : World) :
    (Container.createScope p).singletons = p.singletons ∧
    (Container.createScope p).disposers = [] ∧
    (Container.createScope p).tasks = [] ∧
    (∀ key v fid disp, lookup p.singletons key = some v →
      truthy v = true →
      Container.resolve (Container.createScope p) w key fid disp =
        (Container.createScope p, w, v)) ∧
    (∀ key fid disp, lookup p.singletons key = none →
      lookup
          (Container.resolve (Container.createScope p) w key fid
            disp).1.singletons key = some (JSVal.promise w.nextPid) ∧
      (Container.resolve (Container.createScope p) w key fid
          disp).1.tasks = [⟨key, w.nextPid, fid, disp⟩] ∧
      lookup p.singletons key = none) := by
  refine ⟨rfl, rfl, rfl, ?_, ?_⟩
  · intro key v fid disp hv ht
    exact resolve_hit_eq (Container.createScope p) w key fid disp v hv ht
  · intro key fid disp habs
    refine ⟨?_, ?_, habs⟩ <;>
      simp [Container.resolve, Container.createScope, resolveMiss, habs,
        lookup_setk_self]

/-- Witness for the amended C7: a child scoped off a parent holding 7
for token 1 starts with no disposers and resolves token 1 to 7 with no
state change, although it passes a different factory. -/
theorem createScope_snapshot_spec_witness :
    (Container.createScope
        ⟨[(1, JSVal.num 7)], [(3, JSVal.num 7)], []⟩).disposers = [] ∧
    Container.resolve
        (Container.createScope ⟨[(1, JSVal.num 7)], [(3, JSVal.num 7)], []⟩)
        World.empty 1 9 none =
      (Container.createScope ⟨[(1, JSVal.num 7)], [(3, JSVal.num 7)], []⟩,
        World.empty, JSVal.num 7) := by
  have h := createScope_snapshot_spec
    ⟨[(1, JSVal.num 7)], [(3, JSVal.num 7)], []⟩ World.empty
  exact ⟨h.2.1, h.2.2.2.1 1 (JSVal.num 7) 9 none (by decide) (by decide)⟩

/-- C8: two calls to token, even with identical labels, mint distinct
keys, and distinct keys never collide in a container mapping: writing
under one key leaves every lookup under the other key unchanged. -/
theorem token_mint_unique (s1 s2 : String) (g : SymbolGen) :
    (token s1 g).1.key ≠ (token s2 (token s1 g).2).1.key ∧
    ∀ (m : List (Nat × JSVal)) (v : JSVal),
      lookup (setk m (token s1 g).1.key v) (token s2 (token s1 g).2).1.key =
        lookup m (token s2 (token s1 g).2).1.key := by
  have hne : g.next ≠ g.next + 1 := by omega
  exact ⟨hne, fun m v => lookup_setk_ne m _ _ v hne⟩

/-- Witness for C8: two tokens minted in a row with the identical label
db carry distinct keys. -/
theorem token_mint_unique_witness :
    (token "db" ⟨0⟩).1.key ≠ (token "db" (token "db" ⟨0⟩).2).1.key :=
  (token_mint_unique "db" "db" ⟨0⟩).1

/-- C9: loadenv is a pure pass-through to the schema validation: it
parses the supplied source mapping, defaulting to the process
environment when the source is omitted, and it fails with a validation
error exactly when the chosen source does not satisfy the schema. -/
theorem loadenv_passthrough (schema : ZodSchema)
    (envSource : Option (List (String × JSVal)))
    (processEnv : List (String × JSVal)) :
    loadenv schema envSource processEnv =
      schema.parse (envSource.getD processEnv) ∧
    (∀ src, loadenv schema (some src) processEnv = schema.parse src) ∧
    loadenv schema none processEnv = schema.parse processEnv ∧
    ((∃ e, loadenv schema envSource processEnv = .error e) ↔
      satisfies schema (envSource.getD processEnv) = false) := by
  refine ⟨rfl, fun _ => rfl, rfl, ?_⟩
  unfold loadenv satisfies
  rcases h : schema.parse (envSource.getD processEnv) with e | m <;> simp [h]

/-- Schema for the C9 witness: reject an empty mapping, accept any
other mapping unchanged. -/
def c9Schema : ZodSchema :=
  ⟨fun m => if m = [] then .error "empty env" else .ok m⟩

/-- Witness for C9: with no explicit source, loadenv validates the
process environment itself. -/
theorem loadenv_passthrough_witness :
    loadenv c9Schema none [("FOO", JSVal.str "x")] =
      c9Schema.parse [("FOO", JSVal.str "x")] :=
  (loadenv_passthrough c9Schema none [("FOO", JSVal.str "x")]).1

/-- C10: in the registration variant, a resolve call for a token with
neither a cached instance nor a registration returns the thrown
No-registration error (surfaced as a rejection by the async machinery)
and leaves the whole container, its registrations, cache and disposer
list included, and the world unchanged. -/
theorem resolve_no_registration_throws (c : RegContainer) (w : World)
    (t : InjectionToken)
    (h1 : lookup c.resolvedInstances t.key = none)
    (h2 : lookup c.registrations t.key = none) :
    RegContainer.resolve c w t =
      (c, w, .thrown
        ("DI Container: No registration found for token \"" ++
          t.description ++ "\".")) := by
  simp [RegContainer.resolve, h1, h2]

/-- Witness for C10: resolving token db on an empty registration
container throws the No-registration error and changes nothing. -/
theorem resolve_no_registration_throws_witness :
    RegContainer.resolve RegContainer.empty World.empty ⟨0, "db"⟩ =
      (RegContainer.empty, World.empty,
        .thrown "DI Container: No registration found for token \"db\".") :=
  resolve_no_registration_throws RegContainer.empty World.empty ⟨0, "db"⟩
    rfl rfl

end Lambdi
